import Mathlib

/-!
Verification development for the smart-helpdesk server's agent triage
pipeline (`src/services/agentStub.js`, the OpenAI-backed variant of the
same service, and the Mongoose models in `src/models`).

The JavaScript source is shallowly embedded:

* numbers the code keeps as JS floats (confidence, thresholds, relevance
  scores) are modelled as rationals, with `toFixed(2)` becoming exact
  rational rounding to two decimal places;
* strings are Lean strings; JS `toLowerCase` is modelled on the ASCII
  range (every classifier keyword is ASCII), `String.prototype.includes`
  as substring containment on character lists, and `split` as an exact
  single-separator split;
* Mongo documents are structures with `Nat` identifiers, and the Mongo
  queries of `retrieveKB` are pure functions over an in-memory list of
  articles; the `$text` relevance search is parametrised by a match
  predicate and a score function;
* fallible DB lookups are modelled by explicit failure flags, and the
  pluggable OpenAI backend by an `Except` value;
* wall-clock fields (`latencyMs`, reply timestamps, `createdAt`) are not
  modelled.
-/

namespace Helpdesk

/-- ASCII lower-casing of one character, modelling JS `toLowerCase` on the
alphabet relevant to the classifier (all keywords are ASCII letters). -/
def lowerChar (c : Char) : Char :=
  if 'A' ≤ c ∧ c ≤ 'Z' then Char.ofNat (c.toNat + 32) else c

/-- Model of `text.toLowerCase()` as a character list. -/
def lowerStr (text : String) : List Char :=
  text.data.map lowerChar

/-- Substring containment on character lists, modelling JS
`String.prototype.includes`. -/
def infixOf : List Char → List Char → Bool
  | needle, [] => needle.isEmpty
  | needle, c :: t => needle.isPrefixOf (c :: t) || infixOf needle t

/-- JS `String.prototype.split` on a single-character separator: the list
of (possibly empty) tokens between separator occurrences. -/
def splitOnP (p : Char → Bool) : List Char → List (List Char)
  | [] => [[]]
  | c :: t =>
    match splitOnP p t with
    | [] => [[]]
    | h :: r => if p c then [] :: h :: r else (c :: h) :: r

/-- Keyword list for the `billing` category (agentStub.js line 34). -/
def billingKeywords : List String :=
  ["refund", "invoice", "payment", "charge", "billing", "money", "cost", "price"]

/-- Keyword list for the `tech` category (agentStub.js line 35). -/
def techKeywords : List String :=
  ["error", "bug", "crash", "stack", "login", "password", "technical", "broken"]

/-- Keyword list for the `shipping` category (agentStub.js line 36). -/
def shippingKeywords : List String :=
  ["delivery", "shipment", "package", "tracking", "shipping", "order"]

/-- Model of `keywords.filter((keyword) => lowerText.includes(keyword)).length`. -/
def countMatches (keywords : List String) (lowerText : List Char) : Nat :=
  (keywords.filter (fun k => infixOf k.data lowerText)).length

/-- Billing keyword match count for a raw input text
(agentStub.js line 42). -/
def billingMatchesOf (text : String) : Nat :=
  countMatches billingKeywords (lowerStr text)

/-- Tech keyword match count for a raw input text (agentStub.js line 43). -/
def techMatchesOf (text : String) : Nat :=
  countMatches techKeywords (lowerStr text)

/-- Shipping keyword match count for a raw input text
(agentStub.js line 44). -/
def shippingMatchesOf (text : String) : Nat :=
  countMatches shippingKeywords (lowerStr text)

/-- Model of `text.split(" ").length`: the token count obtained by splitting the raw
text on the single space character (agentStub.js line 61). -/
def totalWordsOf (text : String) : Nat :=
  (splitOnP (fun c => c == ' ') text.data).length

/-- Rounding a rational to two decimal places, modelling
`Number.parseFloat(x.toFixed(2))` at the rational level of abstraction. -/
def round2 (q : ℚ) : ℚ := (round (q * 100) : ℤ) / 100

/-- Result of a classification, mirroring the object returned by
`stubClassify` (the wall-clock `latencyMs` field is not modelled). -/
structure Classification where
  predictedCategory : String
  confidence : ℚ
deriving Repr, DecidableEq

/-- The category scan of `stubClassify` (agentStub.js lines 38-58): start
from `other` with match count 0, visit billing, then tech, then shipping,
replacing the current best only on a strictly greater match count.  The
result pairs the chosen category with the final `matchCount`. -/
def categoryScan (billingMatches techMatches shippingMatches : Nat) : String × Nat :=
  let s0 : String × Nat := ("other", 0)
  let s1 := if billingMatches > s0.2 then ("billing", billingMatches) else s0
  let s2 := if techMatches > s1.2 then ("tech", techMatches) else s1
  if shippingMatches > s2.2 then ("shipping", shippingMatches) else s2

/-- The winning match count used by the confidence formula. -/
def matchCountOf (text : String) : Nat :=
  (categoryScan (billingMatchesOf text) (techMatchesOf text) (shippingMatchesOf text)).2

/-- Deterministic keyword classifier `stubClassify`
(agentStub.js lines 30-71). -/
def stubClassify (text : String) : Classification :=
  let best := categoryScan (billingMatchesOf text) (techMatchesOf text) (shippingMatchesOf text)
  let totalWords := totalWordsOf text
  let confidence : ℚ :=
    min (95/100) (max (3/10) ((best.2 * 2 : ℕ) / (max totalWords 5 : ℕ)))
  { predictedCategory := best.1
    confidence := round2 confidence }

/-- The confidence formula exactly as claim C3 words it: the same clamp
and rounding, but with the word count taken as the *whitespace*-split
token count of the raw text (splitting on any whitespace character)
rather than the single-space split the code performs. -/
def confidenceWhitespaceSpec (text : String) : ℚ :=
  let wsWords := (splitOnP (fun c => c.isWhitespace) text.data).length
  round2 (min (95/100) (max (3/10) ((matchCountOf text * 2 : ℕ) / (max wsWords 5 : ℕ))))

/-! ### Knowledge-base articles and retrieval -/

/-- A knowledge-base article (`src/models/Article.js`); `id` models the
Mongo `_id`, which is unique across the collection. -/
structure Article where
  id : Nat
  title : String
  body : String
  status : String
  tags : List String
deriving Repr, DecidableEq

/-- The first retrieval query (agentStub.js lines 77-80):
`Article.find({status: "published", tags: {$in: [category]}}).limit(3)`. -/
def stage1Query (kb : List Article) (category : String) : List Article :=
  (kb.filter (fun a => a.status == "published" && a.tags.contains category)).take 3

/-- The second retrieval query (agentStub.js lines 84-94): a full-text
search over published articles, ordered by descending relevance score and
limited to 3.  The Mongo `$text` match and `textScore` are abstracted by
`txtMatch` and `score`. -/
def stage2Query (kb : List Article) (txtMatch : Article → Bool) (score : Article → ℚ) :
    List Article :=
  ((kb.filter (fun a => a.status == "published" && txtMatch a)).mergeSort
    (fun a b => decide (score b ≤ score a))).take 3

/-- Model of `retrieveKB` (agentStub.js lines 74-108).  The `fail1`/`fail2` flags
model the two awaited lookups throwing; the surrounding `try/catch`
returns `[]` in that case. -/
def retrieveKB (kb : List Article) (category : String) (txtMatch : Article → Bool)
    (score : Article → ℚ) (fail1 fail2 : Bool) : List Article :=
  if fail1 then []
  else
    let articles := stage1Query kb category
    if articles.length < 2 then
      if fail2 then []
      else
        let existingIds := articles.map (·.id)
        let newArticles :=
          (stage2Query kb txtMatch score).filter (fun a => !(existingIds.contains a.id))
        (articles ++ newArticles).take 3
    else articles

/-! ### Drafting -/

/-- The drafter's output, mirroring the object returned by `stubDraft`
(`latencyMs` not modelled; citations are article identifiers). -/
structure Draft where
  draftReply : String
  citations : List Nat
deriving Repr, DecidableEq

/-- Model of `article.body.substring(0, 150) + (article.body.length > 150 ? "..." : "")`
(agentStub.js line 139). -/
def snippetOf (a : Article) : String :=
  String.mk (a.body.data.take 150) ++ (if 150 < a.body.length then "..." else "")

/-- Model of `stubDraft` (agentStub.js lines 127-156): accumulate the reply string
exactly as the JS `+=` statements do, numbering articles in input order. -/
def stubDraft (articles : List Article) : Draft :=
  let draftReply := "Thank you for contacting our support team. "
  let draftReply :=
    if articles.length = 0 then
      draftReply ++
        "We've received your request and will review it shortly. Our team will get back to you with a detailed response."
    else
      let dr := draftReply ++ "Based on your inquiry, here are some resources that might help:\n\n"
      let dr := articles.enum.foldl
        (fun acc p =>
          (acc ++ (toString (p.1 + 1) ++ ". " ++ p.2.title ++ "\n")) ++
            ("   " ++ snippetOf p.2 ++ "\n\n"))
        dr
      dr ++
        "If these resources don't fully address your concern, please let us know and we'll provide additional assistance."
  { draftReply := draftReply ++ "\n\nBest regards,\nSupport Team"
    citations := articles.map (·.id) }

/-- One numbered entry of the drafted reply, as the spec describes it:
position `i` (zero-based) yields `"{i+1}. {title}\n   {snippet}\n\n"`. -/
def entryBlock (i : Nat) (a : Article) : String :=
  toString (i + 1) ++ ". " ++ a.title ++ "\n" ++ "   " ++ snippetOf a ++ "\n\n"

/-- Concatenation of a list of strings. -/
def concatAll : List String → String
  | [] => ""
  | s :: t => s ++ concatAll t

/-- The drafted reply as the spec describes it: a generic acknowledgment
for an empty article list, otherwise an intro, the numbered entries in
input order, a closing offer of further help, and a sign-off. -/
def draftReplySpec (articles : List Article) : String :=
  if articles = [] then
    "Thank you for contacting our support team. " ++
      "We've received your request and will review it shortly. Our team will get back to you with a detailed response." ++
      "\n\nBest regards,\nSupport Team"
  else
    "Thank you for contacting our support team. " ++
      "Based on your inquiry, here are some resources that might help:\n\n" ++
      concatAll (articles.enum.map (fun p => entryBlock p.1 p.2)) ++
      "If these resources don't fully address your concern, please let us know and we'll provide additional assistance." ++
      "\n\nBest regards,\nSupport Team"

/-! ### Tickets, config, suggestions and the audit trail -/

/-- A reply on a ticket (`src/models/Ticket.js`, `replies` subdocument);
`author` is a user identifier, `none` for system replies; the `timestamp`
field is not modelled. -/
structure Reply where
  content : String
  author : Option Nat
  isAgent : Bool
deriving Repr, DecidableEq

/-- A ticket (`src/models/Ticket.js`); `agentSuggestionId` is modelled as
the presence flag of the suggestion reference. -/
structure Ticket where
  id : Nat
  title : String
  description : String
  status : String
  replies : List Reply
  agentSuggestionId : Bool
deriving Repr, DecidableEq

/-- The operator configuration (`src/models/Config.js`). -/
structure Config where
  autoCloseEnabled : Bool
  confidenceThreshold : ℚ
  slaHours : Nat
deriving Repr, DecidableEq

/-- Model of `new Config()`: the schema defaults of `src/models/Config.js`
(lines 5-19): `autoCloseEnabled: true`, `confidenceThreshold: 0.78`,
`slaHours: 24`. -/
def defaultConfig : Config :=
  { autoCloseEnabled := true
    confidenceThreshold := 78/100
    slaHours := 24 }

/-- An agent suggestion (`src/models/AgentSuggestion.js`); `modelInfo`
and timestamps are not modelled. -/
structure Suggestion where
  ticketId : Nat
  predictedCategory : String
  articleIds : List Nat
  draftReply : String
  confidence : ℚ
  autoClosed : Bool
deriving Repr, DecidableEq

/-- An audit-log entry (`src/models/AuditLog.js` usage in
`performTriage`): the actor, the action name, and the `meta.reason`
field when present. -/
structure AuditEntry where
  actor : String
  action : String
  reason : Option String
deriving Repr, DecidableEq

/-- The environment a triage run executes against: the ticket and config
collections, the article collection with the abstracted `$text` search
(match predicate and relevance score per search text), and failure flags
for the two KB lookups. -/
structure Env where
  tickets : List Ticket
  configs : List Config
  kb : List Article
  txtMatch : String → Article → Bool
  score : String → Article → ℚ
  kbFail1 : Bool
  kbFail2 : Bool

/-- Observable outcome of one `performTriage` run: whether it threw, the
final state of the loaded ticket, the stored suggestion, the emitted
audit entries in order, and the config collection after the run. -/
structure TriageResult where
  failed : Bool
  ticket : Option Ticket
  suggestion : Option Suggestion
  audits : List AuditEntry
  configs : List Config

/-- Model of `(await Config.findOne()) || new Config()` (agentStub.js line 170):
the first stored config record, or the schema defaults. -/
def effectiveConfig (env : Env) : Config :=
  env.configs.head?.getD defaultConfig

/-- The classification text `` `${ticket.title} ${ticket.description}` ``
(agentStub.js line 173). -/
def classificationTextOf (t : Ticket) : String :=
  t.title ++ " " ++ t.description

/-- The classification step of a run (agentStub.js line 174; `classify`
reduces to `stubClassify` on both of its branches). -/
def classificationOf (t : Ticket) : Classification :=
  stubClassify (classificationTextOf t)

/-- The retrieval step of a run (agentStub.js line 189). -/
def articlesOf (env : Env) (t : Ticket) : List Article :=
  retrieveKB env.kb (classificationOf t).predictedCategory
    (env.txtMatch (classificationTextOf t)) (env.score (classificationTextOf t))
    env.kbFail1 env.kbFail2

/-- The drafting step of a run (agentStub.js line 203). -/
def draftOf (env : Env) (t : Ticket) : Draft :=
  stubDraft (articlesOf env t)

/-- The suggestion record built in step 4 (agentStub.js lines 218-230);
`autoClosed` starts at the schema default `false`. -/
def suggestionOf (env : Env) (ticketId : Nat) (t : Ticket) : Suggestion :=
  { ticketId := ticketId
    predictedCategory := (classificationOf t).predictedCategory
    articleIds := (articlesOf env t).map (·.id)
    draftReply := (draftOf env t).draftReply
    confidence := (classificationOf t).confidence
    autoClosed := false }

/-- Model of `performTriage` (agentStub.js lines 159-310): load the ticket (a
missing ticket throws, caught by the trailing catch which records
`TRIAGE_FAILED` and rethrows), read the config or fall back to `new
Config()`, classify, retrieve, draft, store the suggestion, mark the
ticket `triaged`, then decide between auto-close and human assignment. -/
def performTriage (env : Env) (ticketId : Nat) : TriageResult :=
  match env.tickets.find? (fun t => t.id == ticketId) with
  | none =>
    { failed := true
      ticket := none
      suggestion := none
      audits := [{ actor := "system", action := "TRIAGE_FAILED", reason := none }]
      configs := env.configs }
  | some ticket =>
    let config := effectiveConfig env
    let classification := classificationOf ticket
    let a1 : AuditEntry := { actor := "system", action := "AGENT_CLASSIFIED", reason := none }
    let articles := articlesOf env ticket
    let a2 : AuditEntry := { actor := "system", action := "KB_RETRIEVED", reason := none }
    let draft := draftOf env ticket
    let a3 : AuditEntry := { actor := "system", action := "DRAFT_GENERATED", reason := none }
    let suggestion := suggestionOf env ticketId ticket
    let ticket1 := { ticket with agentSuggestionId := true, status := "triaged" }
    if config.autoCloseEnabled && decide (config.confidenceThreshold ≤ classification.confidence) then
      let ticket2 :=
        { ticket1 with
          status := "resolved"
          replies := ticket1.replies ++ [{ content := draft.draftReply, author := none, isAgent := true }] }
      { failed := false
        ticket := some ticket2
        suggestion := some { suggestion with autoClosed := true }
        audits := [a1, a2, a3, { actor := "system", action := "AUTO_CLOSED", reason := none }]
        configs := env.configs }
    else
      { failed := false
        ticket := some { ticket1 with status := "waiting_human" }
        suggestion := some suggestion
        audits := [a1, a2, a3,
          { actor := "system", action := "ASSIGNED_TO_HUMAN"
            reason := some (if config.autoCloseEnabled then "low_confidence" else "auto_close_disabled") }]
        configs := env.configs }

/-! ### The OpenAI-backed service variant (`AIAgentService`) -/

/-- Model of `AIAgentService.classify`: use the stub in stub mode or when no
OpenAI client is configured; otherwise call the external backend and, on
any failure (including unparsable responses), fall back to the stub. -/
def aiClassify (stubMode hasOpenai : Bool) (backend : Except String Classification)
    (text : String) : Classification :=
  if stubMode || !hasOpenai then stubClassify text
  else
    match backend with
    | .ok c => c
    | .error _ => stubClassify text

/-- Model of `AIAgentService.draft`: use the stub in stub mode or when no OpenAI
client is configured; otherwise take the backend's reply text with the
article identifiers as citations and, on failure, fall back to the stub. -/
def aiDraft (stubMode hasOpenai : Bool) (backend : Except String String)
    (articles : List Article) : Draft :=
  if stubMode || !hasOpenai then stubDraft articles
  else
    match backend with
    | .ok content => { draftReply := content, citations := articles.map (·.id) }
    | .error _ => stubDraft articles

/-- Model of `AgentStub.classify` (agentStub.js lines 14-28): both branches of the
stub-mode test run `stubClassify`; the real-LLM path is a TODO. -/
def agentClassify (stubMode : Bool) (text : String) : Classification :=
  if stubMode then stubClassify text else stubClassify text

/-! ### Concrete fixtures used by witnesses and counterexamples -/

/-- A concrete published billing article. -/
def wArticle : Article :=
  { id := 7
    title := "Refund policy"
    body := "short body"
    status := "published"
    tags := ["billing"] }

/-- A concrete published tech article. -/
def wArticle2 : Article :=
  { id := 8
    title := "Login help"
    body := "reset your password"
    status := "published"
    tags := ["tech"] }

/-- A concrete knowledge base with two articles. -/
def wKb : List Article := [wArticle, wArticle2]

/-- A concrete open ticket whose combined text classifies as billing with
confidence 0.8. -/
def wTicket : Ticket :=
  { id := 1
    title := "refund"
    description := "invoice"
    status := "open"
    replies := []
    agentSuggestionId := false }

/-- An environment with one ticket, no config record, an empty knowledge
base and healthy lookups. -/
def wEnvAuto : Env :=
  { tickets := [wTicket]
    configs := []
    kb := []
    txtMatch := fun _ _ => false
    score := fun _ _ => 0
    kbFail1 := false
    kbFail2 := false }

/-- The same environment with auto-close disabled by an explicit config
record. -/
def wEnvOff : Env :=
  { wEnvAuto with
    configs := [{ autoCloseEnabled := false, confidenceThreshold := 78/100, slaHours := 24 }] }

/-- The same environment with the first KB lookup failing. -/
def wEnvFail : Env := { wEnvAuto with kbFail1 := true }

/-- The same environment with no tickets at all. -/
def wEnvNoTicket : Env := { wEnvAuto with tickets := [] }

/-! ### Helper lemmas -/

theorem stubClassify_confidence_eq (text : String) :
    (stubClassify text).confidence =
      round2 (min (95/100) (max (3/10)
        ((matchCountOf text * 2 : ℕ) / (max (totalWordsOf text) 5 : ℕ)))) := rfl

theorem round2_mono : Monotone round2 := by
  intro a b hab
  unfold round2
  have h : round (a * 100) ≤ round (b * 100) := by
    rw [round_eq, round_eq]
    exact Int.floor_mono (by linarith)
  have h2 : ((round (a * 100) : ℤ) : ℚ) ≤ ((round (b * 100) : ℤ) : ℚ) := by
    exact_mod_cast h
  linarith

theorem round2_bounds {q : ℚ} (h1 : 3/10 ≤ q) (h2 : q ≤ 95/100) :
    3/10 ≤ round2 q ∧ round2 q ≤ 95/100 := by
  have hlo : round2 (3/10) = 3/10 := by
    rw [round2]; norm_num [round_eq]
  have hhi : round2 (95/100) = 95/100 := by
    rw [round2]; norm_num [round_eq]
  constructor
  · rw [← hlo]; exact round2_mono h1
  · rw [← hhi]; exact round2_mono h2

theorem infixOf_iff (n : List Char) : ∀ h : List Char, infixOf n h = true ↔ n <:+: h := by
  intro h
  induction h with
  | nil =>
    simp [infixOf, List.isEmpty_iff, List.infix_nil]
  | cons c t ih =>
    simp only [infixOf, Bool.or_eq_true, List.isPrefixOf_iff_prefix, ih,
      List.infix_cons_iff]

theorem categoryScan_billing {b t s : Nat} (hbt : b = t) (hb : b ≠ 0) (hs : s ≤ b) :
    (categoryScan b t s).1 = "billing" := by
  subst hbt
  simp only [categoryScan]
  split_ifs <;> first | rfl | omega

theorem categoryScan_tech {b t s : Nat} (hts : t = s) (ht : t ≠ 0) (hb : b < t) :
    (categoryScan b t s).1 = "tech" := by
  subst hts
  simp only [categoryScan]
  split_ifs <;> first | rfl | omega

/-! ### Claim theorems -/

/-- C3 (amended): for every input text the classifier's confidence equals
`round2 (min 0.95 (max 0.3 (matchCount*2 / max wordCount 5)))` where
`wordCount` is the token count obtained by splitting the raw text on the
single space character; and for every non-empty text the confidence lies
in `[0.3, 0.95]` and is never exactly 0 or 1. -/
theorem stubClassify_confidence_spec (text : String) (h : text ≠ "") :
    (stubClassify text).confidence =
      round2 (min (95/100) (max (3/10)
        ((matchCountOf text * 2 : ℕ) / (max (totalWordsOf text) 5 : ℕ)))) ∧
    3/10 ≤ (stubClassify text).confidence ∧
    (stubClassify text).confidence ≤ 95/100 ∧
    (stubClassify text).confidence ≠ 0 ∧
    (stubClassify text).confidence ≠ 1 := by
  refine ⟨rfl, ?_⟩
  rw [stubClassify_confidence_eq]
  set x : ℚ := ((matchCountOf text * 2 : ℕ) : ℚ) / ((max (totalWordsOf text) 5 : ℕ) : ℚ)
  have h1 : 3/10 ≤ min (95/100 : ℚ) (max (3/10) x) := by
    apply le_min (by norm_num) (le_max_left _ _)
  have h2 : min (95/100 : ℚ) (max (3/10) x) ≤ 95/100 := min_le_left _ _
  obtain ⟨hlo, hhi⟩ := round2_bounds h1 h2
  refine ⟨hlo, hhi, ?_, ?_⟩
  · intro hz; rw [hz] at hlo; norm_num at hlo
  · intro hz; rw [hz] at hhi; norm_num at hhi

/-- C3 counterexample: on a tab-separated text the code's confidence
(single-space word count) differs from the claimed formula's value under a
whitespace-split word count. -/
theorem stubClassify_confidence_whitespace_cex :
    (stubClassify "refund\trefund\trefund\trefund\trefund\trefund").confidence ≠
      confidenceWhitespaceSpec "refund\trefund\trefund\trefund\trefund\trefund" := by
  have hm : matchCountOf "refund\trefund\trefund\trefund\trefund\trefund" = 1 := by decide
  have hw : totalWordsOf "refund\trefund\trefund\trefund\trefund\trefund" = 1 := by decide
  have hws : (splitOnP (fun c => c.isWhitespace)
      "refund\trefund\trefund\trefund\trefund\trefund".data).length = 6 := by decide
  rw [stubClassify_confidence_eq]
  simp only [confidenceWhitespaceSpec, hm, hw, hws]
  rw [round2, round2]
  norm_num [round_eq]

/-- Witness for `stubClassify_confidence_spec` at the concrete text
`"refund invoice"`. -/
theorem stubClassify_confidence_spec_witness :
    ("refund invoice" ≠ "") ∧
    (3/10 ≤ (stubClassify "refund invoice").confidence ∧
      (stubClassify "refund invoice").confidence ≤ 95/100) :=
  ⟨by decide, ⟨(stubClassify_confidence_spec "refund invoice" (by decide)).2.1,
    (stubClassify_confidence_spec "refund invoice" (by decide)).2.2.1⟩⟩

/-- C4 (amended): the classifier's category is computed by the scan that
starts from `other` at match count 0, visits billing, tech, shipping and
replaces only on a strictly greater count; equal nonzero billing and tech
counts yield `billing` provided the shipping count does not exceed them,
and equal nonzero tech and shipping counts yield `tech` provided the
billing count is strictly smaller. -/
theorem stubClassify_category_spec (text : String) :
    (stubClassify text).predictedCategory =
      (categoryScan (billingMatchesOf text) (techMatchesOf text) (shippingMatchesOf text)).1 ∧
    (billingMatchesOf text = techMatchesOf text → billingMatchesOf text ≠ 0 →
      shippingMatchesOf text ≤ billingMatchesOf text →
      (stubClassify text).predictedCategory = "billing") ∧
    (techMatchesOf text = shippingMatchesOf text → techMatchesOf text ≠ 0 →
      billingMatchesOf text < techMatchesOf text →
      (stubClassify text).predictedCategory = "tech") := by
  refine ⟨rfl, ?_, ?_⟩
  · intro hbt hb hs
    exact categoryScan_billing hbt hb hs
  · intro hts ht hb
    exact categoryScan_tech hts ht hb

/-- C4 counterexample: `"refund invoice error delivery"` has equal nonzero
tech and shipping match counts, yet classifies as `billing` (the billing
count is larger), refuting the unconditional tie-break claim. -/
theorem stubClassify_tie_cex :
    techMatchesOf "refund invoice error delivery" =
      shippingMatchesOf "refund invoice error delivery" ∧
    techMatchesOf "refund invoice error delivery" ≠ 0 ∧
    (stubClassify "refund invoice error delivery").predictedCategory ≠ "tech" := by
  decide

/-- Witness for `stubClassify_category_spec`: both amended tie-breaks at
concrete texts. -/
theorem stubClassify_category_spec_witness :
    (stubClassify "refund error").predictedCategory = "billing" ∧
    (stubClassify "error delivery").predictedCategory = "tech" :=
  ⟨(stubClassify_category_spec "refund error").2.1 (by decide) (by decide) (by decide),
    (stubClassify_category_spec "error delivery").2.2 (by decide) (by decide) (by decide)⟩

/-- C10: keyword matching is substring containment (each keyword counted
at most once), `'order'` inside `'border'` counts as a shipping match, and
the word count splits only on the single space character (tabs, newlines
and runs of spaces are not generic separators). -/
theorem keyword_matching_substring_spec :
    (∀ n h : List Char, infixOf n h = true ↔ n <:+: h) ∧
    (∀ text, billingMatchesOf text =
        (billingKeywords.filter (fun k => infixOf k.data (lowerStr text))).length ∧
      techMatchesOf text =
        (techKeywords.filter (fun k => infixOf k.data (lowerStr text))).length ∧
      shippingMatchesOf text =
        (shippingKeywords.filter (fun k => infixOf k.data (lowerStr text))).length) ∧
    (stubClassify "my border is damaged").predictedCategory = "shipping" ∧
    billingMatchesOf "refund refund refund refund" = 1 ∧
    totalWordsOf "a\tb c" = 2 ∧
    totalWordsOf "one\ntwo" = 1 ∧
    totalWordsOf "a  b" = 3 := by
  refine ⟨infixOf_iff, fun text => ⟨rfl, rfl, rfl⟩, ?_, ?_, ?_, ?_, ?_⟩ <;> decide

theorem foldl_append_concatAll {α : Type} (f : α → String) :
    ∀ (l : List α) (init : String),
      l.foldl (fun acc x => acc ++ f x) init = init ++ concatAll (l.map f) := by
  intro l
  induction l with
  | nil =>
    intro init
    simp [concatAll, String.append_empty]
  | cons a t ih =>
    intro init
    simp only [List.foldl_cons, List.map_cons, concatAll, ih, String.append_assoc]

theorem stubDraft_reply_eq (articles : List Article) :
    (stubDraft articles).draftReply = draftReplySpec articles := by
  by_cases he : articles = []
  · subst he; rfl
  · have hlen : ¬ articles.length = 0 := by
      simpa [List.length_eq_zero] using he
    have hbody : (fun (acc : String) (p : ℕ × Article) =>
        (acc ++ (toString (p.1 + 1) ++ ". " ++ p.2.title ++ "\n")) ++
          ("   " ++ snippetOf p.2 ++ "\n\n")) =
        fun (acc : String) (p : ℕ × Article) => acc ++ entryBlock p.1 p.2 := by
      funext acc p
      simp only [entryBlock, String.append_assoc]
    simp only [stubDraft, draftReplySpec, if_neg he, if_neg hlen]
    rw [hbody, foldl_append_concatAll]

/-- C7: the drafted reply over `N` articles consists of the intro, exactly
`N` numbered entries in input order (title plus a 150-character body
snippet with an ellipsis appended exactly when the body is longer), the
closing offer of help and the sign-off; citations are the article
identifiers in the same order.  For the empty article list the reply is
the generic acknowledgment, which contains no digit (hence no numbered
entry), and citations are empty. -/
theorem stubDraft_spec (articles : List Article) :
    (stubDraft articles).draftReply = draftReplySpec articles ∧
    (stubDraft articles).citations = articles.map (·.id) ∧
    (stubDraft articles).citations.length = articles.length ∧
    (∀ a : Article, a.body.length ≤ 150 → snippetOf a = a.body) ∧
    (∀ a : Article, 150 < a.body.length →
      snippetOf a = String.mk (a.body.data.take 150) ++ "...") ∧
    (articles = [] →
      (stubDraft articles).draftReply.data.all (fun c => !c.isDigit) = true ∧
      (stubDraft articles).citations = []) := by
  refine ⟨stubDraft_reply_eq articles, rfl, by simp [stubDraft], ?_, ?_, ?_⟩
  · intro a ha
    have ha' : a.body.data.length ≤ 150 := ha
    rw [snippetOf, if_neg (not_lt.mpr ha), List.take_of_length_le ha',
      String.append_empty]
  · intro a ha
    rw [snippetOf, if_pos ha]
  · rintro rfl
    exact ⟨by decide, rfl⟩

/-- Witness for `stubDraft_spec`: the empty-list branch discharged at
`[]`, and the citations of a concrete singleton article list. -/
theorem stubDraft_spec_witness :
    (stubDraft ([] : List Article)).citations = [] ∧
    (stubDraft [wArticle]).citations = [7] :=
  ⟨((stubDraft_spec []).2.2.2.2.2 rfl).2, (stubDraft_spec [wArticle]).2.1⟩

theorem stage1Query_map_id_nodup {kb : List Article} (hids : (kb.map (·.id)).Nodup)
    (category : String) : ((stage1Query kb category).map (·.id)).Nodup := by
  have hsub : List.Sublist (stage1Query kb category) kb :=
    (List.take_sublist _ _).trans (List.filter_sublist kb)
  exact List.Nodup.sublist (hsub.map (·.id)) hids

theorem stage2Query_map_id_nodup {kb : List Article} (hids : (kb.map (·.id)).Nodup)
    (txtMatch : Article → Bool) (score : Article → ℚ) :
    ((stage2Query kb txtMatch score).map (·.id)).Nodup := by
  have hperm : List.Perm
      ((kb.filter (fun a => a.status == "published" && txtMatch a)).mergeSort
        (fun a b => decide (score b ≤ score a)))
      (kb.filter (fun a => a.status == "published" && txtMatch a)) :=
    List.mergeSort_perm _ _
  have hfil : ((kb.filter (fun a => a.status == "published" && txtMatch a)).map (·.id)).Nodup :=
    List.Nodup.sublist ((List.filter_sublist kb).map (·.id)) hids
  have hsort : (((kb.filter (fun a => a.status == "published" && txtMatch a)).mergeSort
      (fun a b => decide (score b ≤ score a))).map (·.id)).Nodup :=
    ((hperm.map (·.id)).nodup_iff).mpr hfil
  exact List.Nodup.sublist
    (List.Sublist.map (fun a : Article => a.id) (List.take_sublist _ _)) hsort

/-- C5: the retriever returns at most 3 articles with pairwise-distinct
identifiers (assuming the store's identifiers are unique, as Mongo `_id`
is); the full-text stage is consulted only when the tag stage yields
fewer than 2 articles (with 2 or more, the result is the tag-stage list
regardless of the second lookup); and in the merge the tag-stage articles
come first, only full-text articles with new identifiers are appended,
and the total is truncated to 3. -/
theorem retrieveKB_spec (kb : List Article) (category : String)
    (txtMatch : Article → Bool) (score : Article → ℚ)
    (hids : (kb.map (·.id)).Nodup) :
    (retrieveKB kb category txtMatch score false false).length ≤ 3 ∧
    ((retrieveKB kb category txtMatch score false false).map (·.id)).Nodup ∧
    (∀ f2, 2 ≤ (stage1Query kb category).length →
      retrieveKB kb category txtMatch score false f2 = stage1Query kb category) ∧
    ((stage1Query kb category).length < 2 →
      retrieveKB kb category txtMatch score false false =
        (stage1Query kb category ++
          (stage2Query kb txtMatch score).filter
            (fun a => !(((stage1Query kb category).map (·.id)).contains a.id))).take 3) := by
  have hlen3 : (stage1Query kb category).length ≤ 3 := by
    unfold stage1Query
    exact List.length_take_le 3 _
  refine ⟨?_, ?_, ?_, ?_⟩
  · simp only [retrieveKB]
    rw [if_neg (show ¬(false = true) by simp)]
    by_cases h2 : (stage1Query kb category).length < 2
    · rw [if_pos h2, if_neg (show ¬(false = true) by simp)]
      exact List.length_take_le 3 _
    · rw [if_neg h2]
      exact hlen3
  · have hnodup : (((stage1Query kb category) ++
        ((stage2Query kb txtMatch score).filter
          (fun a => !(((stage1Query kb category).map (·.id)).contains a.id)))).map (·.id)).Nodup := by
      rw [List.map_append, List.nodup_append]
      refine ⟨stage1Query_map_id_nodup hids category, ?_, ?_⟩
      · exact List.Nodup.sublist
          (List.Sublist.map (fun a : Article => a.id) (List.filter_sublist _))
          (stage2Query_map_id_nodup hids txtMatch score)
      · intro x hx1 hx2
        obtain ⟨a, ha, hax⟩ := List.mem_map.mp hx2
        subst hax
        have hpred := List.of_mem_filter ha
        simp [List.contains, List.elem_eq_mem, hx1] at hpred
    simp only [retrieveKB]
    rw [if_neg (show ¬(false = true) by simp)]
    by_cases h2 : (stage1Query kb category).length < 2
    · rw [if_pos h2, if_neg (show ¬(false = true) by simp)]
      exact List.Nodup.sublist
        (List.Sublist.map (fun a : Article => a.id) (List.take_sublist _ _)) hnodup
    · rw [if_neg h2]
      exact stage1Query_map_id_nodup hids category
  · intro f2 h2
    simp only [retrieveKB]
    rw [if_neg (show ¬(false = true) by simp), if_neg (by omega)]
  · intro h2
    simp only [retrieveKB]
    rw [if_neg (show ¬(false = true) by simp), if_pos h2,
      if_neg (show ¬(false = true) by simp)]

/-- Witness for `retrieveKB_spec` at a concrete knowledge base. -/
theorem retrieveKB_spec_witness :
    ((wKb.map (·.id)).Nodup) ∧
    (retrieveKB wKb "billing" (fun _ => true) (fun _ => 0) false false).length ≤ 3 ∧
    ((retrieveKB wKb "billing" (fun _ => true) (fun _ => 0) false false).map (·.id)).Nodup :=
  ⟨by decide,
    (retrieveKB_spec wKb "billing" (fun _ => true) (fun _ => 0) (by decide)).1,
    (retrieveKB_spec wKb "billing" (fun _ => true) (fun _ => 0) (by decide)).2.1⟩

/-- C6: `retrieveKB` never raises: a failure of the first lookup yields
`[]` (whatever the second lookup would do), a failure of the second
lookup when it is consulted yields `[]`, and a triage run whose first KB
lookup fails still completes (it is not FAILED and stores a suggestion
with no article references). -/
theorem retrieveKB_failure_spec :
    (∀ kb category txtMatch score f2,
      retrieveKB kb category txtMatch score true f2 = []) ∧
    (∀ kb category txtMatch score, (stage1Query kb category).length < 2 →
      retrieveKB kb category txtMatch score false true = []) ∧
    (∀ env tid t, env.tickets.find? (fun x => x.id == tid) = some t →
      env.kbFail1 = true →
      (performTriage env tid).failed = false ∧
      (performTriage env tid).suggestion.map (·.articleIds) = some []) := by
  refine ⟨?_, ?_, ?_⟩
  · intro kb category txtMatch score f2
    simp [retrieveKB]
  · intro kb category txtMatch score h2
    simp only [retrieveKB]
    rw [if_neg (show ¬(false = true) by simp), if_pos h2]
    simp
  · intro env tid t hfind hfail
    have harts : articlesOf env t = [] := by
      simp [articlesOf, hfail, retrieveKB]
    simp only [performTriage, hfind, suggestionOf, harts]
    constructor
    · split <;> rfl
    · split <;> rfl

/-- Witness for `retrieveKB_failure_spec`: a run against `wEnvFail`
(first KB lookup failing) completes with an empty article list. -/
theorem retrieveKB_failure_spec_witness :
    (performTriage wEnvFail 1).failed = false ∧
    (performTriage wEnvFail 1).suggestion.map (·.articleIds) = some [] :=
  retrieveKB_failure_spec.2.2 wEnvFail 1 wTicket rfl rfl

theorem articlesOf_configs (env : Env) (cfgs : List Config) (t : Ticket) :
    articlesOf { env with configs := cfgs } t = articlesOf env t := rfl

theorem draftOf_configs (env : Env) (cfgs : List Config) (t : Ticket) :
    draftOf { env with configs := cfgs } t = draftOf env t := rfl

theorem suggestionOf_configs (env : Env) (cfgs : List Config) (tid : Nat) (t : Ticket) :
    suggestionOf { env with configs := cfgs } tid t = suggestionOf env tid t := rfl

theorem wTicket_confidence : (classificationOf wTicket).confidence = 4/5 := by
  have h1 : matchCountOf (classificationTextOf wTicket) = 2 := by decide
  have h2 : totalWordsOf (classificationTextOf wTicket) = 2 := by decide
  rw [classificationOf, stubClassify_confidence_eq, h1, h2, round2]
  norm_num [round_eq]

theorem wEnvAuto_cond_true :
    ((effectiveConfig wEnvAuto).autoCloseEnabled &&
      decide ((effectiveConfig wEnvAuto).confidenceThreshold ≤
        (classificationOf wTicket).confidence)) = true := by
  have hcfg : effectiveConfig wEnvAuto = defaultConfig := rfl
  rw [hcfg, wTicket_confidence]
  simp only [defaultConfig]
  rw [decide_eq_true (show (78 : ℚ)/100 ≤ 4/5 by norm_num)]
  rfl

/-- C9: a triage run whose ticket identifier does not resolve to a ticket
terminates as FAILED, emits only a `TRIAGE_FAILED` audit entry, creates
no suggestion, mutates no ticket, and leaves the config store alone. -/
theorem performTriage_not_found_spec (env : Env) (tid : Nat)
    (h : env.tickets.find? (fun x => x.id == tid) = none) :
    performTriage env tid =
      { failed := true
        ticket := none
        suggestion := none
        audits := [{ actor := "system", action := "TRIAGE_FAILED", reason := none }]
        configs := env.configs } := by
  simp [performTriage, h]

/-- Witness for `performTriage_not_found_spec` on an environment with no
tickets. -/
theorem performTriage_not_found_witness :
    performTriage wEnvNoTicket 1 =
      { failed := true
        ticket := none
        suggestion := none
        audits := [{ actor := "system", action := "TRIAGE_FAILED", reason := none }]
        configs := [] } := by
  rw [performTriage_not_found_spec wEnvNoTicket 1 rfl]
  rfl

/-- C1: a run that reaches the decision step auto-resolves exactly when
`config.autoCloseEnabled` holds and the classification confidence reaches
`config.confidenceThreshold`: then the ticket ends `resolved` with a
system-authored `isAgent` reply holding the draft text appended, the
suggestion is stored with `autoClosed := true`, and the audit trail ends
with `AUTO_CLOSED`; otherwise the ticket ends `waiting_human` and the
audit trail ends with `ASSIGNED_TO_HUMAN`, whose reason is
`low_confidence` when auto-close is enabled and `auto_close_disabled`
when it is off. -/
theorem performTriage_decision_spec (env : Env) (tid : Nat) (t : Ticket)
    (h : env.tickets.find? (fun x => x.id == tid) = some t) :
    (performTriage env tid).failed = false ∧
    (((effectiveConfig env).autoCloseEnabled = true ∧
        (effectiveConfig env).confidenceThreshold ≤ (classificationOf t).confidence) →
      (performTriage env tid).ticket = some { t with
        agentSuggestionId := true
        status := "resolved"
        replies := t.replies ++
          [{ content := (draftOf env t).draftReply, author := none, isAgent := true }] } ∧
      (performTriage env tid).suggestion =
        some { suggestionOf env tid t with autoClosed := true } ∧
      (performTriage env tid).audits =
        [{ actor := "system", action := "AGENT_CLASSIFIED", reason := none },
         { actor := "system", action := "KB_RETRIEVED", reason := none },
         { actor := "system", action := "DRAFT_GENERATED", reason := none },
         { actor := "system", action := "AUTO_CLOSED", reason := none }]) ∧
    (¬((effectiveConfig env).autoCloseEnabled = true ∧
        (effectiveConfig env).confidenceThreshold ≤ (classificationOf t).confidence) →
      (performTriage env tid).ticket =
        some { t with agentSuggestionId := true, status := "waiting_human" } ∧
      (performTriage env tid).suggestion = some (suggestionOf env tid t) ∧
      (performTriage env tid).audits =
        [{ actor := "system", action := "AGENT_CLASSIFIED", reason := none },
         { actor := "system", action := "KB_RETRIEVED", reason := none },
         { actor := "system", action := "DRAFT_GENERATED", reason := none },
         { actor := "system", action := "ASSIGNED_TO_HUMAN"
           reason := some (if (effectiveConfig env).autoCloseEnabled
             then "low_confidence" else "auto_close_disabled") }]) := by
  by_cases hc : (effectiveConfig env).autoCloseEnabled = true ∧
      (effectiveConfig env).confidenceThreshold ≤ (classificationOf t).confidence
  · have hcond : ((effectiveConfig env).autoCloseEnabled &&
        decide ((effectiveConfig env).confidenceThreshold ≤
          (classificationOf t).confidence)) = true := by
      rw [hc.1, decide_eq_true hc.2]
      rfl
    simp only [performTriage, h]
    rw [if_pos hcond]
    exact ⟨rfl, fun _ => ⟨rfl, rfl, rfl⟩, fun hn => absurd hc hn⟩
  · have hcond : ¬(((effectiveConfig env).autoCloseEnabled &&
        decide ((effectiveConfig env).confidenceThreshold ≤
          (classificationOf t).confidence)) = true) := by
      simp only [Bool.and_eq_true, decide_eq_true_eq]
      exact hc
    simp only [performTriage, h]
    rw [if_neg hcond]
    exact ⟨rfl, fun hp => absurd hp hc, fun _ => ⟨rfl, rfl, rfl⟩⟩

/-- Witness for `performTriage_decision_spec`: with no config record the
`"refund invoice"` ticket (confidence 0.8 ≥ 0.78 and the default
auto-close flag) resolves; with auto-close explicitly disabled the same
ticket goes to a human with reason `auto_close_disabled`. -/
theorem performTriage_decision_witness :
    (performTriage wEnvAuto 1).ticket = some { wTicket with
      agentSuggestionId := true
      status := "resolved"
      replies := wTicket.replies ++
        [{ content := (draftOf wEnvAuto wTicket).draftReply, author := none, isAgent := true }] } ∧
    (performTriage wEnvOff 1).ticket =
      some { wTicket with agentSuggestionId := true, status := "waiting_human" } ∧
    (performTriage wEnvOff 1).audits =
      [{ actor := "system", action := "AGENT_CLASSIFIED", reason := none },
       { actor := "system", action := "KB_RETRIEVED", reason := none },
       { actor := "system", action := "DRAFT_GENERATED", reason := none },
       { actor := "system", action := "ASSIGNED_TO_HUMAN", reason := some "auto_close_disabled" }] := by
  have hpos : (effectiveConfig wEnvAuto).autoCloseEnabled = true ∧
      (effectiveConfig wEnvAuto).confidenceThreshold ≤ (classificationOf wTicket).confidence := by
    refine ⟨rfl, ?_⟩
    rw [wTicket_confidence]
    norm_num [effectiveConfig, wEnvAuto, defaultConfig]
  have hneg : ¬((effectiveConfig wEnvOff).autoCloseEnabled = true ∧
      (effectiveConfig wEnvOff).confidenceThreshold ≤ (classificationOf wTicket).confidence) := by
    intro hp
    exact absurd hp.1 (by decide)
  refine ⟨((performTriage_decision_spec wEnvAuto 1 wTicket rfl).2.1 hpos).1, ?_, ?_⟩
  · exact ((performTriage_decision_spec wEnvOff 1 wTicket rfl).2.2 hneg).1
  · have hres := ((performTriage_decision_spec wEnvOff 1 wTicket rfl).2.2 hneg).2.2
    have hoff : (if (effectiveConfig wEnvOff).autoCloseEnabled = true
        then "low_confidence" else "auto_close_disabled") = "auto_close_disabled" := by
      rw [show (effectiveConfig wEnvOff).autoCloseEnabled = false from rfl]
      simp
    rw [hres, hoff]

/-- C2 (amended): when no config record exists, the run behaves exactly
as with the schema-default record — auto-close **enabled**, threshold
0.78, SLA 24 hours — and persists nothing to the config store. -/
theorem performTriage_default_config_spec (env : Env) (tid : Nat) (h : env.configs = []) :
    effectiveConfig env = defaultConfig ∧
    defaultConfig =
      { autoCloseEnabled := true, confidenceThreshold := 78/100, slaHours := 24 } ∧
    (performTriage env tid).configs = env.configs ∧
    ((performTriage env tid).failed =
        (performTriage { env with configs := [defaultConfig] } tid).failed ∧
      (performTriage env tid).ticket =
        (performTriage { env with configs := [defaultConfig] } tid).ticket ∧
      (performTriage env tid).suggestion =
        (performTriage { env with configs := [defaultConfig] } tid).suggestion ∧
      (performTriage env tid).audits =
        (performTriage { env with configs := [defaultConfig] } tid).audits) := by
  have hcfg : effectiveConfig env = defaultConfig := by
    rw [effectiveConfig, h]
    rfl
  have hcfg' : effectiveConfig { env with configs := [defaultConfig] } = defaultConfig := rfl
  refine ⟨hcfg, rfl, ?_, ?_⟩
  · cases hf : env.tickets.find? (fun x => x.id == tid) with
    | none => simp [performTriage, hf]
    | some t =>
      simp only [performTriage, hf]
      split <;> rfl
  · cases hf : env.tickets.find? (fun x => x.id == tid) with
    | none =>
      have hf' : ({ env with configs := [defaultConfig] } : Env).tickets.find?
          (fun x => x.id == tid) = none := hf
      simp [performTriage, hf, hf', h]
    | some t =>
      have hf' : ({ env with configs := [defaultConfig] } : Env).tickets.find?
          (fun x => x.id == tid) = some t := hf
      simp only [performTriage, hf, hf', hcfg, hcfg', articlesOf_configs,
        draftOf_configs, suggestionOf_configs]
      exact ⟨by split <;> rfl, by split <;> rfl, by split <;> rfl, by split <;> rfl⟩

/-- C2 counterexample: with no config record the defaults auto-close a
high-confidence ticket (the schema default is `autoCloseEnabled: true`),
refuting the claim that the documented default is auto-close disabled. -/
theorem performTriage_default_autoclose_cex :
    wEnvAuto.configs = [] ∧
    (performTriage wEnvAuto 1).ticket.map (·.status) = some "resolved" ∧
    (performTriage wEnvAuto 1).audits.getLast? =
      some { actor := "system", action := "AUTO_CLOSED", reason := none } := by
  refine ⟨rfl, ?_, ?_⟩ <;>
    simp only [performTriage, show wEnvAuto.tickets.find? (fun x => x.id == 1) =
      some wTicket from rfl, wEnvAuto_cond_true, if_true, eq_self_iff_true] <;> rfl

/-- Witness for `performTriage_default_config_spec` at `wEnvAuto`. -/
theorem performTriage_default_config_witness :
    (performTriage wEnvAuto 1).configs = wEnvAuto.configs ∧
    effectiveConfig wEnvAuto = defaultConfig :=
  ⟨(performTriage_default_config_spec wEnvAuto 1 rfl).2.2.1,
    (performTriage_default_config_spec wEnvAuto 1 rfl).1⟩

/-- C8: a failing external-model backend never surfaces to the caller:
`AgentStub.classify` always returns the deterministic stub result, and
the OpenAI-backed `AIAgentService.classify`/`draft` fall back to the stub
result whenever the backend errors, in every mode. -/
theorem external_backend_fallback_spec :
    (∀ sm text, agentClassify sm text = stubClassify text) ∧
    (∀ sm ho e text, aiClassify sm ho (Except.error e) text = stubClassify text) ∧
    (∀ sm ho e articles, aiDraft sm ho (Except.error e) articles = stubDraft articles) := by
  refine ⟨?_, ?_, ?_⟩
  · intro sm text
    cases sm <;> rfl
  · intro sm ho e text
    by_cases hb : (sm || !ho) = true
    · rw [aiClassify, if_pos hb]
    · rw [aiClassify, if_neg hb]
  · intro sm ho e articles
    by_cases hb : (sm || !ho) = true
    · rw [aiDraft, if_pos hb]
    · rw [aiDraft, if_neg hb]

end Helpdesk
